import Mathlib

/-!
Shallow embedding of `mama_cas/models.py`: the CAS ticket lifecycle core.
Times are modelled as natural numbers of epoch seconds; the Django ORM store
of each manager is modelled as a `List Ticket`; exceptions are modelled as an
explicit error type returned alongside the (possibly mutated) store.
-/

/-- Kind discriminator for the three concrete ticket models that inherit the
abstract `Ticket` Django model. -/
inductive TicketKind
  | serviceTicket
  | proxyTicket
  | proxyGrantingTicket
deriving DecidableEq, Repr

/-- Minimal structured URL, standing in for the URL strings the Python code
passes around; `same_origin` compares scheme, host and port, paths and query
are carried along untouched. -/
structure URL where
  scheme : String
  host : String
  port : Nat
  path : String
  query : List (String × String)
deriving DecidableEq, Repr

/-- Rendering of a URL used only inside human-readable error messages. -/
def URL.render (u : URL) : String :=
  u.scheme ++ "://" ++ u.host ++ ":" ++ toString u.port ++ u.path

/-- One row of any of the three ticket tables. Fields that exist only on some
models are `Option`s: `service` is populated exactly on ServiceTicket and
ProxyTicket rows, `primary` exactly on ServiceTicket rows, `iou` exactly on
ProxyGrantingTicket rows (mirroring the Django model schemas). -/
structure Ticket where
  kind : TicketKind
  ticket : String
  user : Nat
  created : Nat
  consumed : Option Nat
  service : Option URL
  primary : Option Bool
  iou : Option String
  granted_by_st : Option String
  granted_by_pt : Option String
  granted_by_pgt : Option String
deriving DecidableEq, Repr

/-- Does the model schema of this kind contain a `service` field
(`self.model._meta.get_field` succeeding in `validate_ticket`)? -/
def hasServiceField : TicketKind → Bool
  | .serviceTicket => true
  | .proxyTicket => true
  | .proxyGrantingTicket => false

/-- Does the model of this kind define the `is_primary` method (only
`ServiceTicket` does)? -/
def hasPrimaryField : TicketKind → Bool
  | .serviceTicket => true
  | .proxyTicket => false
  | .proxyGrantingTicket => false

/-- Django `verbose_name.title()` for each model, as used in error messages. -/
def title : TicketKind → String
  | .serviceTicket => "Service Ticket"
  | .proxyTicket => "Proxy Ticket"
  | .proxyGrantingTicket => "Proxy-Granting Ticket"

/-- Python class name of each model, used in the AttributeError message. -/
def className : TicketKind → String
  | .serviceTicket => "ServiceTicket"
  | .proxyTicket => "ProxyTicket"
  | .proxyGrantingTicket => "ProxyGrantingTicket"

/-- The `TICKET_PREFIX` class attribute of each model. -/
def ticketPfx : TicketKind → String
  | .serviceTicket => "ST"
  | .proxyTicket => "PT"
  | .proxyGrantingTicket => "PGT"

/-- Schema well-formedness: a row populates exactly the optional fields its
model declares. -/
def Ticket.WF (t : Ticket) : Prop :=
  t.service.isSome = hasServiceField t.kind ∧
  t.primary.isSome = hasPrimaryField t.kind ∧
  t.iou.isSome = (t.kind = .proxyGrantingTicket)

/-- CAS_SERVICE_TICKET_EXPIRE default: 5 (minutes). -/
def TICKET_EXPIRE : Nat := 5

/-- CAS_TICKET_RAND_LEN default: 32. -/
def TICKET_RAND_LEN : Nat := 32

/-- Python `Ticket.consume`: populate `consumed` with the current time. -/
def Ticket.consume (t : Ticket) (now : Nat) : Ticket :=
  { t with consumed := some now }

/-- Python `Ticket.is_consumed`: true iff `consumed` is populated. -/
def Ticket.is_consumed (t : Ticket) : Bool :=
  t.consumed.isSome

/-- Python `Ticket.is_expired`: `created + timedelta(minutes=TICKET_EXPIRE) <= now`
with times in epoch seconds. -/
def Ticket.is_expired (t : Ticket) (now : Nat) : Bool :=
  t.created + TICKET_EXPIRE * 60 ≤ now

/-- Character class `[A-Z]`. -/
def isUpperAZ (c : Char) : Bool := 'A' ≤ c && c ≤ 'Z'

/-- Character class `[0-9]`. -/
def isDigit09 (c : Char) : Bool := '0' ≤ c && c ≤ '9'

/-- Character class `[a-zA-Z0-9]`. -/
def isAlnum (c : Char) : Bool :=
  isUpperAZ c || ('a' ≤ c && c ≤ 'z') || isDigit09 c

/-- Split a character list at every '-' (none of the regex character classes
admits '-', so this decomposition is faithful to the anchored regex). -/
def splitDash : List Char → List (List Char)
  | [] => [[]]
  | c :: cs =>
    match splitDash cs with
    | [] => [[]]
    | g :: gs => if c = '-' then [] :: g :: gs else (c :: g) :: gs

/-- TICKET_RE: `^[A-Z]{2,3}-[0-9]{10,}-[a-zA-Z0-9]{TICKET_RAND_LEN}$`. -/
def ticket_re_match (s : String) : Bool :=
  match splitDash s.toList with
  | [p, d, r] =>
    decide (2 ≤ p.length) && decide (p.length ≤ 3) && p.all isUpperAZ &&
    decide (10 ≤ d.length) && d.all isDigit09 &&
    decide (r.length = TICKET_RAND_LEN) && r.all isAlnum
  | _ => false

/-- Spec wire grammar (modelled from the spec's words, for comparison with
`ticket_re_match`): `PREFIX-[0-9]{10,}-[A-Za-z0-9]{N}` with
PREFIX ∈ {ST, PT, PGT, PGTIOU} and N = TICKET_RAND_LEN. -/
def spec_grammar_match (s : String) : Bool :=
  match splitDash s.toList with
  | [p, d, r] =>
    (p == "ST".toList || p == "PT".toList || p == "PGT".toList || p == "PGTIOU".toList) &&
    decide (10 ≤ d.length) && d.all isDigit09 &&
    decide (r.length = TICKET_RAND_LEN) && r.all isAlnum
  | _ => false

/-- The typed failures the validation code can raise. `attributeError` models
an uncaught Python `AttributeError` (a crash, not a CAS protocol error). -/
inductive ValidationError
  | invalidRequest (msg : String)
  | invalidTicket (msg : String)
  | invalidService (msg : String)
  | badPGT (msg : String)
  | attributeError (msg : String)
deriving DecidableEq, Repr

/-- Python `TicketManager.create_rand_str`: `"%s-%d-%s" % (pfx, int(time.time()), get_random_string(length=TICKET_RAND_LEN))`.
The entropy source and clock are parameters (`rand`, `epoch`). -/
def create_rand_str (pfx : String) (epoch : Nat) (rand : String) : String :=
  pfx ++ "-" ++ toString epoch ++ "-" ++ rand

/-- Django `save()` of a mutated row: replace the row with the same (unique)
ticket string. -/
def save_ticket (store : List Ticket) (t : Ticket) : List Ticket :=
  store.map (fun u => if u.ticket = t.ticket then t else u)

/-- Django `same_origin` (external helper, `django.utils.http`): two URLs have
the same origin iff their scheme, host and port agree; paths are ignored. -/
def same_origin (u1 u2 : URL) : Bool :=
  u1.scheme == u2.scheme && u1.host == u2.host && u1.port == u2.port

/-- Tail of `TicketManager.validate_ticket` (line 100 of `models.py`):
`if renew and not t.is_primary()`. When the model lacks the `is_primary`
method (ProxyTicket), calling it raises a Python AttributeError, modelled by
the `attributeError` result. -/
def renew_check (kind : TicketKind) (ticket : String) (tc : Ticket)
    (renew : Bool) (store' : List Ticket) :
    Except ValidationError Ticket × List Ticket :=
  if renew then
    match tc.primary with
    | none =>
      (.error (.attributeError (className kind ++ " object has no attribute is_primary")), store')
    | some p =>
      if ¬ p then
        (.error (.invalidTicket (title kind ++ " " ++ ticket
          ++ " was not issued via primary credentials")), store')
      else (.ok tc, store')
  else (.ok tc, store')

/-- Python `TicketManager.validate_ticket` (the base manager shared by
ServiceTicket and ProxyTicket). Returns the result of the call together with
the store as it stands when control leaves the method: the `t.consume()` on
line 91 of `models.py` persists even when a later check raises. -/
def TicketManager.validate_ticket (kind : TicketKind) (store : List Ticket)
    (now : Nat) (ticket : String) (service : Option URL) (renew : Bool) :
    Except ValidationError Ticket × List Ticket :=
  if ticket = "" then
    (.error (.invalidRequest "No ticket string provided"), store)
  else if hasServiceField kind && service.isNone then
    (.error (.invalidRequest "No service identifier provided"), store)
  else if ¬ ticket_re_match ticket then
    (.error (.invalidTicket ("Ticket string " ++ ticket ++ " is invalid")), store)
  else
    match store.find? (fun t => t.ticket == ticket) with
    | none =>
      (.error (.invalidTicket (title kind ++ " " ++ ticket ++ " does not exist")), store)
    | some t =>
      if t.is_consumed then
        (.error (.invalidTicket (title kind ++ " " ++ ticket ++ " has already been used")), store)
      else
        let tc := t.consume now
        let store' := save_ticket store tc
        if tc.is_expired now then
          (.error (.invalidTicket (title kind ++ " " ++ ticket ++ " has expired")), store')
        else
          match service, tc.service with
          | some s, some ts =>
            if ¬ same_origin ts s then
              (.error (.invalidService (title kind ++ " " ++ ticket ++ " for service "
                ++ ts.render ++ " is invalid for service " ++ s.render)), store')
            else renew_check kind ticket tc renew store'
          | _, _ => renew_check kind ticket tc renew store'

/-- Python `ProxyGrantingTicketManager.validate_ticket` (override, lines
276-304 of `models.py`): requires a service parameter explicitly, reports a
missing ticket as `BadPGTError`, and — unlike the base manager — never calls
`consume`, so the store is returned unchanged on every path. -/
def ProxyGrantingTicketManager.validate_ticket (store : List Ticket)
    (now : Nat) (ticket : String) (service : Option URL) :
    Except ValidationError Ticket × List Ticket :=
  if ticket = "" then
    (.error (.invalidRequest "No ticket string provided"), store)
  else if service.isNone then
    (.error (.invalidRequest "No service identifier provided"), store)
  else if ¬ ticket_re_match ticket then
    (.error (.invalidTicket ("Ticket string " ++ ticket ++ " is invalid")), store)
  else
    match store.find? (fun t => t.ticket == ticket) with
    | none =>
      (.error (.badPGT (title .proxyGrantingTicket ++ " " ++ ticket ++ " does not exist")), store)
    | some t =>
      if t.is_consumed then
        (.error (.invalidTicket (title .proxyGrantingTicket ++ " " ++ ticket
          ++ " has already been used")), store)
      else if t.is_expired now then
        (.error (.invalidTicket (title .proxyGrantingTicket ++ " " ++ ticket
          ++ " has expired")), store)
      else (.ok t, store)

/-- Dispatch of `objects.validate_ticket` by model: `ProxyGrantingTicket`
rows go through the overriding manager (whose method takes no `renew`
argument, so `renew` is dropped there); the other two kinds use the base
manager. -/
def validate (kind : TicketKind) (store : List Ticket) (now : Nat)
    (ticket : String) (service : Option URL) (renew : Bool) :
    Except ValidationError Ticket × List Ticket :=
  match kind with
  | .proxyGrantingTicket => ProxyGrantingTicketManager.validate_ticket store now ticket service
  | k => TicketManager.validate_ticket k store now ticket service renew

/-- Python `TicketManager.create_ticket`: use the provided ticket string or
generate one, set `created = now`, `consumed` unset, and insert the row with
the remaining keyword arguments. -/
def TicketManager.create_ticket (kind : TicketKind) (store : List Ticket)
    (tk : Option String) (epoch : Nat) (rand : String) (now : Nat) (user : Nat)
    (service : Option URL) (primary : Option Bool) (iou : Option String)
    (gbst gbpt gbpgt : Option String) : Ticket × List Ticket :=
  let s := match tk with
    | some s => s
    | none => create_rand_str (ticketPfx kind) epoch rand
  let t : Ticket :=
    { kind := kind, ticket := s, user := user, created := now, consumed := none,
      service := service, primary := primary, iou := iou,
      granted_by_st := gbst, granted_by_pt := gbpt, granted_by_pgt := gbpgt }
  (t, store ++ [t])

/-- Outcome of the single HTTPS GET issued by `validate_pgturl`: either a
transport-level failure (`requests` ConnectionError or SSLError) or a
response with an HTTP status code. The client is an external collaborator,
modelled as a function from the requested URL to this outcome. -/
inductive HttpOutcome
  | connError (msg : String)
  | response (status : Nat)
deriving DecidableEq, Repr

/-- Python `add_query_params` (from `mama_cas.utils`): append the given
parameters to the query string of the URL, keeping existing parameters. -/
def add_query_params (u : URL) (ps : List (String × String)) : URL :=
  { u with query := u.query ++ ps }

/-- Python `is_scheme_https` (from `mama_cas.utils`). -/
def is_scheme_https (u : URL) : Bool :=
  u.scheme == "https"

/-- Model of `requests.Response.raise_for_status`: raises an HTTPError whose
message carries the status code for 4xx (client error) and 5xx (server
error) statuses, and does nothing otherwise. -/
def raise_for_status (status : Nat) : Option String :=
  if 400 ≤ status ∧ status < 500 then
    some (toString status ++ " Client Error")
  else if 500 ≤ status ∧ status < 600 then
    some (toString status ++ " Server Error")
  else none

/-- Python `ProxyGrantingTicketManager.validate_pgturl`: check the scheme is
HTTPS, append `pgtId`/`pgtIou` as query parameters, issue one TLS-verified
GET through the external client, and turn transport errors and 4xx/5xx
statuses into `InternalError`s. The second component records whether the
network call was made at all. -/
def validate_pgturl (client : URL → HttpOutcome) (pgturl : URL)
    (pgtid pgtiou : String) : Except String Unit × Bool :=
  if ¬ is_scheme_https pgturl then
    (.error "Proxy callback URL scheme is not HTTPS", false)
  else
    let u := add_query_params pgturl [("pgtId", pgtid), ("pgtIou", pgtiou)]
    match client u with
    | .connError msg => (.error msg, true)
    | .response st =>
      match raise_for_status st with
      | some e => (.error ("Proxy callback returned " ++ e), true)
      | none => (.ok (), true)

/-- Python `ProxyGrantingTicketManager.create_ticket`: generate the PGT and
IOU strings, validate the callback URL, and only on success create the row
(with the pre-generated strings) via the base manager; on `InternalError`
log a warning and return `None` with nothing persisted. -/
def ProxyGrantingTicketManager.create_ticket (client : URL → HttpOutcome)
    (store : List Ticket) (pgturl : URL) (epochId : Nat) (randId : String)
    (epochIou : Nat) (randIou : String) (now : Nat) (user : Nat)
    (gbst gbpt : Option String) : Option Ticket × List Ticket :=
  let pgtid := create_rand_str (ticketPfx .proxyGrantingTicket) epochId randId
  let pgtiou := create_rand_str "PGTIOU" epochIou randIou
  match (validate_pgturl client pgturl pgtid pgtiou).1 with
  | .error _ => (none, store)
  | .ok _ =>
    let r := TicketManager.create_ticket .proxyGrantingTicket store (some pgtid)
      0 "" now user none none (some pgtiou) gbst gbpt none
    (some r.1, r.2)

/-- Python `TicketManager.delete_invalid_tickets`: delete every consumed or
expired row, keeping the rest. -/
def delete_invalid_tickets (store : List Ticket) (now : Nat) : List Ticket :=
  store.filter (fun t => ¬ (t.is_consumed || t.is_expired now))

/-- Python `TicketManager.consume_tickets`: for every row of the given user
that is neither consumed nor expired, set `consumed = now`; all other rows
are untouched. -/
def consume_tickets : List Ticket → Nat → Nat → List Ticket
  | [], _, _ => []
  | t :: ts, user, now =>
    (if t.user == user && ¬ t.is_consumed && ¬ t.is_expired now
     then t.consume now else t) :: consume_tickets ts user now

deriving instance DecidableEq for Except

/-- Invariant-preservation relation between a store before and after one
manager operation: every surviving row keeps its creation timestamp, and a
consumed timestamp, once set, is never changed or cleared. Rows are matched
by their (unique) ticket string. -/
def preservesTicketInv (store store' : List Ticket) : Prop :=
  ∀ t ∈ store, ∀ t' ∈ store', t'.ticket = t.ticket →
    t'.created = t.created ∧ ∀ c, t.consumed = some c → t'.consumed = some c

/-- Fixed 32-character random tail used by the concrete test rows below. -/
def rand32 : String := "aaaaaaaaaaaaaaaaaaaaaaaaaaaaaaaa"

/-- Second fixed 32-character random tail. -/
def rand32b : String := "bbbbbbbbbbbbbbbbbbbbbbbbbbbbbbbb"

/-- Service URL stored on concrete test tickets. -/
def svcURL : URL := ⟨"https", "www.example.com", 443, "/", []⟩

/-- URL with the same origin as `svcURL` but a different path. -/
def svcURL2 : URL := ⟨"https", "www.example.com", 443, "/accounts/login", []⟩

/-- URL with a different host than `svcURL`. -/
def otherURL : URL := ⟨"https", "www.other.example", 443, "/", []⟩

/-- HTTPS proxy callback URL used in the PGT issuance fixtures. -/
def cbURL : URL := ⟨"https", "www.example.com", 443, "/callback", []⟩

/-- Non-HTTPS callback URL. -/
def httpURL : URL := ⟨"http", "www.example.com", 80, "/callback", []⟩

/-- Concrete valid ServiceTicket row (unconsumed, created 1700000000). -/
def st0 : Ticket :=
  { kind := .serviceTicket, ticket := "ST-1700000000-" ++ rand32, user := 1,
    created := 1700000000, consumed := none, service := some svcURL,
    primary := some true, iou := none,
    granted_by_st := none, granted_by_pt := none, granted_by_pgt := none }

/-- Concrete valid ProxyTicket row. -/
def pt0 : Ticket :=
  { kind := .proxyTicket, ticket := "PT-1700000000-" ++ rand32, user := 1,
    created := 1700000000, consumed := none, service := some svcURL,
    primary := none, iou := none,
    granted_by_st := none, granted_by_pt := none, granted_by_pgt := none }

/-- Concrete valid ProxyGrantingTicket row. -/
def pgt0 : Ticket :=
  { kind := .proxyGrantingTicket, ticket := "PGT-1700000000-" ++ rand32, user := 1,
    created := 1700000000, consumed := none, service := none,
    primary := none, iou := some ("PGTIOU-1700000000-" ++ rand32),
    granted_by_st := none, granted_by_pt := none, granted_by_pgt := none }

/-- Expired (created far in the past), unconsumed ProxyGrantingTicket row. -/
def pgt1 : Ticket :=
  { pgt0 with ticket := "PGT-1600000000-" ++ rand32, created := 1600000000 }

/-- Already-consumed ServiceTicket row of user 1. -/
def st1 : Ticket :=
  { st0 with ticket := "ST-1700000001-" ++ rand32, consumed := some 1700000050 }

/-- Unconsumed ServiceTicket row of a different user. -/
def st2 : Ticket :=
  { st0 with ticket := "ST-1700000002-" ++ rand32, user := 2 }

/-- The PGT manager's `validate_ticket` never writes to the store. -/
theorem pgt_validate_store_eq (store : List Ticket) (now : Nat)
    (ticket : String) (service : Option URL) :
    (ProxyGrantingTicketManager.validate_ticket store now ticket service).2 = store := by
  unfold ProxyGrantingTicketManager.validate_ticket
  repeat' split <;> try rfl

/-- Looking up a ticket string after `save_ticket` of a row with that string
returns the saved row. -/
theorem find?_save_ticket (store : List Ticket) (t tc : Ticket)
    (hfind : store.find? (fun u => u.ticket == t.ticket) = some t)
    (htc : tc.ticket = t.ticket) :
    (save_ticket store tc).find? (fun u => u.ticket == t.ticket) = some tc := by
  induction store with
  | nil => simp at hfind
  | cons a as ih =>
    simp only [save_ticket, List.map_cons] at *
    by_cases ha : a.ticket = t.ticket
    · rw [if_pos (ha.trans htc.symm)]
      exact List.find?_cons_of_pos _ (by simpa using htc)
    · have hfind2 : as.find? (fun u => u.ticket == t.ticket) = some t := by
        rwa [List.find?_cons_of_neg _ (by simpa using ha)] at hfind
      rw [if_neg (fun h => ha (h.trans htc))]
      rw [List.find?_cons_of_neg _ (by simpa using ha)]
      exact ih hfind2

theorem base_validate_ok (k : TicketKind) (store : List Ticket) (now : Nat)
    (t : Ticket) (ts s : URL)
    (hfind : store.find? (fun u => u.ticket == t.ticket) = some t)
    (hne : t.ticket ≠ "")
    (hre : ticket_re_match t.ticket = true)
    (hcons : t.consumed = none)
    (hexp : ¬ (t.created + TICKET_EXPIRE * 60 ≤ now))
    (hsvc : t.service = some ts)
    (hso : same_origin ts s = true) :
    TicketManager.validate_ticket k store now t.ticket (some s) false =
      (.ok (t.consume now), save_ticket store (t.consume now)) := by
  unfold TicketManager.validate_ticket
  rw [if_neg hne, if_neg (by simp), if_neg (by simp [hre]), hfind]
  dsimp only
  rw [if_neg (by simp [Ticket.is_consumed, hcons])]
  simp only [Ticket.consume, Ticket.is_expired]
  rw [if_neg (by simpa using hexp), hsvc]
  simp only [renew_check]
  rw [if_neg (by simp [hso])]
  simp [Ticket.consume]

/-- A consumed ticket makes the base `validate_ticket` fail with the
already-used message, before the expiry check, leaving the store unchanged. -/
theorem base_validate_consumed (k : TicketKind) (store : List Ticket)
    (now : Nat) (t : Ticket) (c : Nat) (service : Option URL) (renew : Bool)
    (hfind : store.find? (fun u => u.ticket == t.ticket) = some t)
    (hne : t.ticket ≠ "")
    (hsome : service.isSome = true)
    (hre : ticket_re_match t.ticket = true)
    (hcons : t.consumed = some c) :
    TicketManager.validate_ticket k store now t.ticket service renew =
      (.error (.invalidTicket (title k ++ " " ++ t.ticket ++ " has already been used")), store) := by
  unfold TicketManager.validate_ticket
  cases service with
  | none => simp at hsome
  | some s =>
    rw [if_neg hne, if_neg (by simp), if_neg (by simp [hre]), hfind]
    dsimp only
    rw [if_pos (by simp [Ticket.is_consumed, hcons])]

/-- An unconsumed but expired ticket makes the base `validate_ticket` fail
with the expired message, after the consumed row has been saved. -/
theorem base_validate_expired (k : TicketKind) (store : List Ticket)
    (now : Nat) (t : Ticket) (service : Option URL) (renew : Bool)
    (hfind : store.find? (fun u => u.ticket == t.ticket) = some t)
    (hne : t.ticket ≠ "")
    (hsome : service.isSome = true)
    (hre : ticket_re_match t.ticket = true)
    (hcons : t.consumed = none)
    (hexp : t.created + TICKET_EXPIRE * 60 ≤ now) :
    TicketManager.validate_ticket k store now t.ticket service renew =
      (.error (.invalidTicket (title k ++ " " ++ t.ticket ++ " has expired")),
        save_ticket store (t.consume now)) := by
  unfold TicketManager.validate_ticket
  cases service with
  | none => simp at hsome
  | some s =>
    rw [if_neg hne, if_neg (by simp), if_neg (by simp [hre]), hfind]
    dsimp only
    rw [if_neg (by simp [Ticket.is_consumed, hcons])]
    simp only [Ticket.consume, Ticket.is_expired]
    rw [if_pos (by simpa using hexp)]

/-- Service-origin mismatch makes the base `validate_ticket` fail with
`InvalidService` (the consumed row having been saved first). -/
theorem base_validate_service_mismatch (k : TicketKind) (store : List Ticket)
    (now : Nat) (t : Ticket) (ts s : URL) (renew : Bool)
    (hfind : store.find? (fun u => u.ticket == t.ticket) = some t)
    (hne : t.ticket ≠ "")
    (hre : ticket_re_match t.ticket = true)
    (hcons : t.consumed = none)
    (hexp : ¬ (t.created + TICKET_EXPIRE * 60 ≤ now))
    (hsvc : t.service = some ts)
    (hso : same_origin ts s = false) :
    TicketManager.validate_ticket k store now t.ticket (some s) renew =
      (.error (.invalidService (title k ++ " " ++ t.ticket ++ " for service "
        ++ ts.render ++ " is invalid for service " ++ s.render)),
        save_ticket store (t.consume now)) := by
  unfold TicketManager.validate_ticket
  rw [if_neg hne, if_neg (by simp), if_neg (by simp [hre]), hfind]
  dsimp only
  rw [if_neg (by simp [Ticket.is_consumed, hcons])]
  simp only [Ticket.consume, Ticket.is_expired]
  rw [if_neg (by simpa using hexp), hsvc]
  dsimp only
  rw [if_pos (by simp [hso])]

/-- Successful run of the PGT manager's `validate_ticket`: the ticket is
returned and the store is untouched (no consumption). -/
theorem pgt_validate_ok (store : List Ticket) (now : Nat) (t : Ticket) (s : URL)
    (hfind : store.find? (fun u => u.ticket == t.ticket) = some t)
    (hne : t.ticket ≠ "")
    (hre : ticket_re_match t.ticket = true)
    (hcons : t.consumed = none)
    (hexp : ¬ (t.created + TICKET_EXPIRE * 60 ≤ now)) :
    ProxyGrantingTicketManager.validate_ticket store now t.ticket (some s) =
      (.ok t, store) := by
  unfold ProxyGrantingTicketManager.validate_ticket
  rw [if_neg hne, if_neg (by simp), if_neg (by simp [hre]), hfind]
  dsimp only
  rw [if_neg (by simp [Ticket.is_consumed, hcons])]
  rw [if_neg (by simp only [Ticket.is_expired]; simpa using hexp)]

/-- A consumed PGT fails with the already-used message (before the expiry
check), with no store change. -/
theorem pgt_validate_consumed (store : List Ticket) (now : Nat) (t : Ticket)
    (c : Nat) (s : URL)
    (hfind : store.find? (fun u => u.ticket == t.ticket) = some t)
    (hne : t.ticket ≠ "")
    (hre : ticket_re_match t.ticket = true)
    (hcons : t.consumed = some c) :
    ProxyGrantingTicketManager.validate_ticket store now t.ticket (some s) =
      (.error (.invalidTicket (title .proxyGrantingTicket ++ " " ++ t.ticket
        ++ " has already been used")), store) := by
  unfold ProxyGrantingTicketManager.validate_ticket
  rw [if_neg hne, if_neg (by simp), if_neg (by simp [hre]), hfind]
  dsimp only
  rw [if_pos (by simp [Ticket.is_consumed, hcons])]

/-- An unconsumed, expired PGT fails with the expired message and the store —
including the ticket's null consumed timestamp — is untouched. -/
theorem pgt_validate_expired (store : List Ticket) (now : Nat) (t : Ticket) (s : URL)
    (hfind : store.find? (fun u => u.ticket == t.ticket) = some t)
    (hne : t.ticket ≠ "")
    (hre : ticket_re_match t.ticket = true)
    (hcons : t.consumed = none)
    (hexp : t.created + TICKET_EXPIRE * 60 ≤ now) :
    ProxyGrantingTicketManager.validate_ticket store now t.ticket (some s) =
      (.error (.invalidTicket (title .proxyGrantingTicket ++ " " ++ t.ticket
        ++ " has expired")), store) := by
  unfold ProxyGrantingTicketManager.validate_ticket
  rw [if_neg hne, if_neg (by simp), if_neg (by simp [hre]), hfind]
  dsimp only
  rw [if_neg (by simp [Ticket.is_consumed, hcons])]
  rw [if_pos (by simp only [Ticket.is_expired]; simpa using hexp)]

/-- The dash splitter never returns an empty group list. -/
theorem splitDash_ne_nil (cs : List Char) : splitDash cs ≠ [] := by
  cases cs with
  | nil => simp [splitDash]
  | cons c cs =>
    unfold splitDash
    cases h : splitDash cs with
    | nil => simp
    | cons g gs => by_cases hc : c = '-' <;> simp [hc]

/-- Prepending dash-free characters extends the first group. -/
theorem splitDash_append_no_dash (xs ys : List Char) (h : ∀ c ∈ xs, c ≠ '-')
    (g : List Char) (gs : List (List Char)) (hys : splitDash ys = g :: gs) :
    splitDash (xs ++ ys) = (xs ++ g) :: gs := by
  induction xs with
  | nil => simpa using hys
  | cons c xs ih =>
    have hc : c ≠ '-' := h c (by simp)
    have ih' := ih (fun d hd => h d (by simp [hd]))
    simp only [List.cons_append]
    unfold splitDash
    rw [ih']
    simp [hc]

/-- A leading dash opens a fresh empty group. -/
theorem splitDash_dash_cons (ys : List Char) :
    splitDash ('-' :: ys) = [] :: splitDash ys := by
  cases h : splitDash ys with
  | nil => exact absurd h (splitDash_ne_nil ys)
  | cons g gs =>
    conv_lhs => rw [splitDash]
    rw [h]
    simp

/-- A dash-free list is a single group. -/
theorem splitDash_no_dash (xs : List Char) (h : ∀ c ∈ xs, c ≠ '-') :
    splitDash xs = [xs] := by
  have := splitDash_append_no_dash xs [] h [] [] rfl
  simpa using this

/-- Splitting `p-d-r` with dash-free parts yields exactly those parts. -/
theorem splitDash_three (p d r : List Char)
    (hp : ∀ c ∈ p, c ≠ '-') (hd : ∀ c ∈ d, c ≠ '-') (hr : ∀ c ∈ r, c ≠ '-') :
    splitDash (p ++ ('-' :: (d ++ ('-' :: r)))) = [p, d, r] := by
  have h3 : splitDash r = [r] := splitDash_no_dash r hr
  have h2 : splitDash ('-' :: r) = [] :: [r] := by rw [splitDash_dash_cons, h3]
  have h1 : splitDash (d ++ ('-' :: r)) = (d ++ []) :: [r] :=
    splitDash_append_no_dash d _ hd [] [r] h2
  have h0 : splitDash ('-' :: (d ++ ('-' :: r))) = [] :: ((d ++ []) :: [r]) := by
    rw [splitDash_dash_cons, h1]
  have h4 := splitDash_append_no_dash p _ hp [] ((d ++ []) :: [r]) h0
  simpa using h4

/-- Characters of a generated ticket string, decomposed at its dashes. -/
theorem create_rand_str_toList (pfx : String) (epoch : Nat) (rand : String) :
    (create_rand_str pfx epoch rand).toList
      = pfx.toList ++ ('-' :: ((toString epoch).toList ++ ('-' :: rand.toList))) := by
  simp [create_rand_str, String.toList, String.data_append]

/-- A character satisfying a predicate that the dash fails is not a dash. -/
theorem ne_dash_of_all (p : Char → Bool) (hp : p '-' = false) (l : List Char)
    (h : l.all p = true) : ∀ c ∈ l, c ≠ '-' := by
  intro c hc he
  subst he
  have h2 := List.all_eq_true.mp h _ hc
  rw [hp] at h2
  exact Bool.noConfusion h2

/-- With pairwise-distinct ticket strings, two member rows with the same
string are the same row. -/
theorem eq_of_ticket_eq (store : List Ticket)
    (huniq : store.Pairwise (fun a b => a.ticket ≠ b.ticket))
    (a b : Ticket) (ha : a ∈ store) (hb : b ∈ store) (h : a.ticket = b.ticket) :
    a = b := by
  by_contra hne
  have hsymm : Symmetric (fun x y : Ticket => x.ticket ≠ y.ticket) :=
    fun x y hxy hyx => hxy hyx.symm
  exact (huniq.forall hsymm) ha hb hne h

/-- Any operation that only returns rows already in the store preserves the
created/consumed invariants. -/
theorem preserves_of_subset (store store' : List Ticket)
    (huniq : store.Pairwise (fun a b => a.ticket ≠ b.ticket))
    (hsub : ∀ b ∈ store', b ∈ store) : preservesTicketInv store store' := by
  intro t ht t' ht' he
  have h := eq_of_ticket_eq store huniq t' t (hsub t' ht') ht he
  subst h
  exact ⟨rfl, fun c hc => hc⟩

/-- Appending a row with a fresh ticket string preserves the invariants. -/
theorem preserves_append_fresh (store : List Ticket)
    (huniq : store.Pairwise (fun a b => a.ticket ≠ b.ticket))
    (t : Ticket) (hfresh : ∀ u ∈ store, u.ticket ≠ t.ticket) :
    preservesTicketInv store (store ++ [t]) := by
  intro a ha b hb he
  rcases List.mem_append.mp hb with hb | hb
  · have h := eq_of_ticket_eq store huniq b a hb ha he
    subst h
    exact ⟨rfl, fun c hc => hc⟩
  · have hbt : b = t := by simpa using hb
    subst hbt
    exact absurd he.symm (hfresh a ha)

/-- Saving the consumed copy of an unconsumed member row preserves the
invariants. -/
theorem preserves_save_consume (store : List Ticket)
    (huniq : store.Pairwise (fun a b => a.ticket ≠ b.ticket))
    (t0 : Ticket) (h0 : t0 ∈ store) (hc : t0.consumed = none) (now : Nat) :
    preservesTicketInv store (save_ticket store (t0.consume now)) := by
  intro a ha b hb he
  simp only [save_ticket] at hb
  rcases List.mem_map.mp hb with ⟨u, hu, hub⟩
  by_cases hcond : u.ticket = (t0.consume now).ticket
  · rw [if_pos hcond] at hub
    subst hub
    have ht0a : t0 = a :=
      eq_of_ticket_eq store huniq t0 a h0 ha (by simpa [Ticket.consume] using he)
    subst ht0a
    refine ⟨rfl, ?_⟩
    intro c hcc
    rw [hc] at hcc
    exact Option.noConfusion hcc
  · rw [if_neg hcond] at hub
    subst hub
    have h := eq_of_ticket_eq store huniq u a hu ha he
    subst h
    exact ⟨rfl, fun c hcc => hcc⟩

/-- Loop of `consume_tickets` as a map over the rows. -/
theorem consume_tickets_eq_map (store : List Ticket) (user now : Nat) :
    consume_tickets store user now = store.map (fun t =>
      if t.user == user && ¬ t.is_consumed && ¬ t.is_expired now
      then t.consume now else t) := by
  induction store with
  | nil => rfl
  | cons t ts ih => simp [consume_tickets, ih]

/-- `consume_tickets` preserves the created/consumed invariants. -/
theorem preserves_consume_tickets (store : List Ticket)
    (huniq : store.Pairwise (fun a b => a.ticket ≠ b.ticket)) (user now : Nat) :
    preservesTicketInv store (consume_tickets store user now) := by
  intro a ha b hb he
  rw [consume_tickets_eq_map] at hb
  rcases List.mem_map.mp hb with ⟨u, hu, hub⟩
  by_cases hcond : (u.user == user && ¬ u.is_consumed && ¬ u.is_expired now) = true
  · rw [if_pos hcond] at hub
    subst hub
    have hune : u.consumed = none := by
      simp only [Bool.and_eq_true, Bool.not_eq_true] at hcond
      have h2 := hcond.1.2
      cases hcu : u.consumed with
      | none => rfl
      | some c => rw [Ticket.is_consumed, hcu] at h2; simp at h2
    have hua : u = a :=
      eq_of_ticket_eq store huniq u a hu ha (by simpa [Ticket.consume] using he)
    subst hua
    refine ⟨rfl, ?_⟩
    intro c hcc
    rw [hune] at hcc
    exact Option.noConfusion hcc
  · rw [if_neg hcond] at hub
    subst hub
    have h := eq_of_ticket_eq store huniq u a hu ha he
    subst h
    exact ⟨rfl, fun c hcc => hcc⟩

/-- The renew tail never writes to the store. -/
theorem renew_check_store (k : TicketKind) (tkt : String) (tc : Ticket)
    (renew : Bool) (st : List Ticket) :
    (renew_check k tkt tc renew st).2 = st := by
  unfold renew_check
  split
  · split
    · rfl
    · split <;> rfl
  · rfl

/-- Every run of `validate` either leaves the store unchanged or saves the
consumed copy of the looked-up, previously unconsumed row. -/
theorem validate_store_cases (kind : TicketKind) (store : List Ticket) (now : Nat)
    (tkt : String) (svc : Option URL) (renew : Bool) :
    (validate kind store now tkt svc renew).2 = store ∨
    ∃ t0, store.find? (fun u => u.ticket == tkt) = some t0 ∧ t0.consumed = none ∧
      (validate kind store now tkt svc renew).2 = save_ticket store (t0.consume now) := by
  cases kind with
  | proxyGrantingTicket => exact Or.inl (pgt_validate_store_eq store now tkt svc)
  | serviceTicket =>
    simp only [validate, TicketManager.validate_ticket]
    split
    · exact Or.inl rfl
    split
    · exact Or.inl rfl
    split
    · exact Or.inl rfl
    cases hf : store.find? (fun u => u.ticket == tkt) with
    | none => exact Or.inl rfl
    | some t0 =>
      dsimp only
      split
      · exact Or.inl rfl
      · rename_i hcons
        refine Or.inr ⟨t0, rfl, ?_, ?_⟩
        · cases hcu : t0.consumed with
          | none => rfl
          | some c => rw [Ticket.is_consumed, hcu] at hcons; simp at hcons
        · split
          · rfl
          · split
            · split
              · rfl
              · exact renew_check_store _ _ _ _ _
            · exact renew_check_store _ _ _ _ _
  | proxyTicket =>
    simp only [validate, TicketManager.validate_ticket]
    split
    · exact Or.inl rfl
    split
    · exact Or.inl rfl
    split
    · exact Or.inl rfl
    cases hf : store.find? (fun u => u.ticket == tkt) with
    | none => exact Or.inl rfl
    | some t0 =>
      dsimp only
      split
      · exact Or.inl rfl
      · rename_i hcons
        refine Or.inr ⟨t0, rfl, ?_, ?_⟩
        · cases hcu : t0.consumed with
          | none => rfl
          | some c => rw [Ticket.is_consumed, hcu] at hcons; simp at hcons
        · split
          · rfl
          · split
            · split
              · rfl
              · exact renew_check_store _ _ _ _ _
            · exact renew_check_store _ _ _ _ _

/-- C1 (as stated, refuted): for a valid stored ProxyGrantingTicket, a first
`validate` succeeds and an immediately following second `validate` on the
same string succeeds as well — the PGT manager never sets the consumed
timestamp — contradicting the claim that the second call must fail with
InvalidTicket ("already used") for every ticket kind. -/
theorem C1_counterexample :
    (validate .proxyGrantingTicket [pgt0] 1700000100 pgt0.ticket (some svcURL) false).1
      = .ok pgt0 ∧
    (validate .proxyGrantingTicket
      (validate .proxyGrantingTicket [pgt0] 1700000100 pgt0.ticket (some svcURL) false).2
      1700000101 pgt0.ticket (some svcURL) false).1 = .ok pgt0 := by decide

/-- C1 (amended): for every valid stored ServiceTicket or ProxyTicket,
`validate` succeeds (saving the consumed row) and an immediately following
second `validate` on the same string fails with InvalidTicket ("already
used"); the ProxyGrantingTicket manager's `validate` never writes to the
store, so for that kind the second call succeeds as well. -/
theorem C1_validate_single_use
    (k : TicketKind) (hk : k ≠ TicketKind.proxyGrantingTicket)
    (store : List Ticket) (now now2 : Nat) (t : Ticket) (ts s : URL)
    (hfind : store.find? (fun u => u.ticket == t.ticket) = some t)
    (hne : t.ticket ≠ "")
    (hre : ticket_re_match t.ticket = true)
    (hcons : t.consumed = none)
    (hexp : ¬ (t.created + TICKET_EXPIRE * 60 ≤ now))
    (hsvc : t.service = some ts)
    (hso : same_origin ts s = true) :
    validate k store now t.ticket (some s) false
      = (.ok (t.consume now), save_ticket store (t.consume now)) ∧
    (validate k (save_ticket store (t.consume now)) now2 t.ticket (some s) false).1
      = .error (.invalidTicket (title k ++ " " ++ t.ticket ++ " has already been used")) ∧
    ∀ (store2 : List Ticket) (now3 : Nat) (tkt : String) (svc : Option URL) (rnw : Bool),
      (validate .proxyGrantingTicket store2 now3 tkt svc rnw).2 = store2 := by
  have hbase : ∀ st2 n2, validate k st2 n2 t.ticket (some s) false
      = TicketManager.validate_ticket k st2 n2 t.ticket (some s) false := by
    intro st2 n2
    cases k with
    | proxyGrantingTicket => exact absurd rfl hk
    | serviceTicket => rfl
    | proxyTicket => rfl
  refine ⟨?_, ?_, ?_⟩
  · rw [hbase]
    exact base_validate_ok k store now t ts s hfind hne hre hcons hexp hsvc hso
  · rw [hbase]
    have hf2 := find?_save_ticket store t (t.consume now) hfind rfl
    have h2 := base_validate_consumed k (save_ticket store (t.consume now)) now2
      (t.consume now) now (some s) false hf2 hne rfl hre rfl
    exact congrArg Prod.fst h2
  · intro store2 now3 tkt svc rnw
    exact pgt_validate_store_eq store2 now3 tkt svc

/-- C1 witness: concrete run of the amended single-use property on a stored
ServiceTicket. -/
theorem C1_witness :
    validate .serviceTicket [st0] 1700000100 st0.ticket (some svcURL2) false
      = (.ok (st0.consume 1700000100), save_ticket [st0] (st0.consume 1700000100)) ∧
    (validate .serviceTicket (save_ticket [st0] (st0.consume 1700000100))
        1700000101 st0.ticket (some svcURL2) false).1
      = .error (.invalidTicket (title .serviceTicket ++ " " ++ st0.ticket
          ++ " has already been used")) :=
  ⟨(C1_validate_single_use .serviceTicket (by decide) [st0] 1700000100 1700000101
      st0 svcURL svcURL2 (by decide) (by decide) (by decide) (by decide)
      (by decide) (by decide) (by decide)).1,
   (C1_validate_single_use .serviceTicket (by decide) [st0] 1700000100 1700000101
      st0 svcURL svcURL2 (by decide) (by decide) (by decide) (by decide)
      (by decide) (by decide) (by decide)).2.1⟩

/-- C2 (as stated, refuted): an unconsumed, expired ProxyGrantingTicket
fails `validate` with "expired", yet the store is unchanged and the
ticket's consumed timestamp is still null — the consumption mark is NOT
written before the expiry check in the PGT manager's `validate`. -/
theorem C2_counterexample :
    (validate .proxyGrantingTicket [pgt1] 1700000100 pgt1.ticket (some svcURL) false).1
      = .error (.invalidTicket (title .proxyGrantingTicket ++ " " ++ pgt1.ticket
          ++ " has expired")) ∧
    (validate .proxyGrantingTicket [pgt1] 1700000100 pgt1.ticket (some svcURL) false).2
      = [pgt1] ∧
    pgt1.consumed = none := by decide

/-- C2 (amended): the already-consumed check precedes the expiry check in
both validate methods, so a ticket that is both expired and already consumed
always fails with "already used"; for ServiceTicket and ProxyTicket an
unconsumed ticket is marked consumed before the expiry check, so a call
failing with "expired" still saves the consumed row; the PGT manager's
validate, in contrast, leaves an expired unconsumed ticket unconsumed. -/
theorem C2_consumed_precedes_expiry
    (k : TicketKind) (store : List Ticket) (now : Nat) (s : URL) (renew : Bool)
    (t u : Ticket) (c : Nat)
    (hfind_t : store.find? (fun x => x.ticket == t.ticket) = some t)
    (hne_t : t.ticket ≠ "") (hre_t : ticket_re_match t.ticket = true)
    (hcons_t : t.consumed = some c)
    (_hexp_t : t.created + TICKET_EXPIRE * 60 ≤ now)
    (hfind_u : store.find? (fun x => x.ticket == u.ticket) = some u)
    (hne_u : u.ticket ≠ "") (hre_u : ticket_re_match u.ticket = true)
    (hcons_u : u.consumed = none)
    (hexp_u : u.created + TICKET_EXPIRE * 60 ≤ now) :
    (validate k store now t.ticket (some s) renew).1
      = .error (.invalidTicket (title k ++ " " ++ t.ticket ++ " has already been used")) ∧
    (k ≠ .proxyGrantingTicket →
      validate k store now u.ticket (some s) renew
        = (.error (.invalidTicket (title k ++ " " ++ u.ticket ++ " has expired")),
           save_ticket store (u.consume now)) ∧
      (save_ticket store (u.consume now)).find? (fun x => x.ticket == u.ticket)
        = some (u.consume now)) ∧
    (k = .proxyGrantingTicket →
      validate k store now u.ticket (some s) renew
        = (.error (.invalidTicket (title k ++ " " ++ u.ticket ++ " has expired")), store)) := by
  refine ⟨?_, ?_, ?_⟩
  · cases k with
    | proxyGrantingTicket =>
      have h := pgt_validate_consumed store now t c s hfind_t hne_t hre_t hcons_t
      show (ProxyGrantingTicketManager.validate_ticket store now t.ticket (some s)).1 = _
      rw [h]
    | serviceTicket =>
      have h := base_validate_consumed .serviceTicket store now t c (some s) renew
        hfind_t hne_t rfl hre_t hcons_t
      show (TicketManager.validate_ticket .serviceTicket store now t.ticket (some s) renew).1 = _
      rw [h]
    | proxyTicket =>
      have h := base_validate_consumed .proxyTicket store now t c (some s) renew
        hfind_t hne_t rfl hre_t hcons_t
      show (TicketManager.validate_ticket .proxyTicket store now t.ticket (some s) renew).1 = _
      rw [h]
  · intro hk
    have hbase : validate k store now u.ticket (some s) renew
        = TicketManager.validate_ticket k store now u.ticket (some s) renew := by
      cases k with
      | proxyGrantingTicket => exact absurd rfl hk
      | serviceTicket => rfl
      | proxyTicket => rfl
    refine ⟨?_, ?_⟩
    · rw [hbase]
      exact base_validate_expired k store now u (some s) renew
        hfind_u hne_u rfl hre_u hcons_u hexp_u
    · exact find?_save_ticket store u (u.consume now) hfind_u rfl
  · intro hk
    subst hk
    exact pgt_validate_expired store now u s hfind_u hne_u hre_u hcons_u hexp_u

/-- C2 witness: concrete run on a store holding a consumed expired
ServiceTicket and an unconsumed expired ServiceTicket. -/
theorem C2_witness :
    (validate .serviceTicket [st1, st0] 1700000400 st1.ticket (some svcURL) false).1
      = .error (.invalidTicket (title .serviceTicket ++ " " ++ st1.ticket
          ++ " has already been used")) ∧
    validate .serviceTicket [st1, st0] 1700000400 st0.ticket (some svcURL) false
      = (.error (.invalidTicket (title .serviceTicket ++ " " ++ st0.ticket
          ++ " has expired")), save_ticket [st1, st0] (st0.consume 1700000400)) :=
  ⟨(C2_consumed_precedes_expiry .serviceTicket [st1, st0] 1700000400 svcURL false
      st1 st0 1700000050 (by decide) (by decide) (by decide) (by decide) (by decide)
      (by decide) (by decide) (by decide) (by decide) (by decide)).1,
   ((C2_consumed_precedes_expiry .serviceTicket [st1, st0] 1700000400 svcURL false
      st1 st0 1700000050 (by decide) (by decide) (by decide) (by decide) (by decide)
      (by decide) (by decide) (by decide) (by decide) (by decide)).2.1 (by decide)).1⟩

/-- C5 (as stated, refuted): the ProxyGrantingTicket schema has no service
field, yet `validate` on a stored PGT without a service parameter fails with
InvalidRequest ("No service identifier provided") — the overriding manager
requires the parameter explicitly. -/
theorem C5_counterexample :
    (validate .proxyGrantingTicket [pgt0] 1700000100 pgt0.ticket none false).1
      = .error (.invalidRequest "No service identifier provided") := by decide

/-- C5 (amended): a missing service parameter makes `validate` fail with
InvalidRequest for every ticket kind: for ServiceTicket and ProxyTicket via
the schema-reflection check, and for ProxyGrantingTicket via the explicit
check in its overriding validate. -/
theorem C5_service_required (k : TicketKind) (store : List Ticket) (now : Nat)
    (tkt : String) (renew : Bool) (hne : tkt ≠ "") :
    (validate k store now tkt none renew).1
      = .error (.invalidRequest "No service identifier provided") := by
  cases k with
  | proxyGrantingTicket =>
    show (ProxyGrantingTicketManager.validate_ticket store now tkt none).1 = _
    unfold ProxyGrantingTicketManager.validate_ticket
    rw [if_neg hne, if_pos (by simp)]
  | serviceTicket =>
    show (TicketManager.validate_ticket .serviceTicket store now tkt none renew).1 = _
    unfold TicketManager.validate_ticket
    rw [if_neg hne, if_pos (by simp [hasServiceField])]
  | proxyTicket =>
    show (TicketManager.validate_ticket .proxyTicket store now tkt none renew).1 = _
    unfold TicketManager.validate_ticket
    rw [if_neg hne, if_pos (by simp [hasServiceField])]

/-- C5 witness: concrete run of the amended missing-service property. -/
theorem C5_witness :
    (validate .proxyGrantingTicket [] 1700000100 "PGT-1700000000-x" none false).1
      = .error (.invalidRequest "No service identifier provided") :=
  C5_service_required .proxyGrantingTicket [] 1700000100 "PGT-1700000000-x" false (by decide)

/-- C6 (claim is right, code is wrong): an otherwise-valid stored
ProxyTicket validates with renew=false, but the same call with renew=true
evaluates `t.is_primary()` on a model that has no such method and crashes
with a Python AttributeError instead of the claimed no-op. -/
theorem C6_renew_crash_on_proxy_ticket :
    (validate .proxyTicket [pt0] 1700000100 pt0.ticket (some svcURL) false).1
      = .ok (pt0.consume 1700000100) ∧
    (validate .proxyTicket [pt0] 1700000100 pt0.ticket (some svcURL) true).1
      = .error (.attributeError "ProxyTicket object has no attribute is_primary") := by decide

/-- C3 (confirmed): PGT issuance is two-phase — when callback validation
fails, `None` is returned and the store is exactly as before (neither the
generated PGT string nor the IOU string was persisted); when it succeeds,
exactly one new row carrying the two pre-generated strings, the user, and
the provenance references is appended and returned. -/
theorem C3_pgt_issue_two_phase
    (client : URL → HttpOutcome) (store : List Ticket) (pgturl : URL)
    (epochId : Nat) (randId : String) (epochIou : Nat) (randIou : String)
    (now user : Nat) (gbst gbpt : Option String) :
    (∀ e, (validate_pgturl client pgturl
        (create_rand_str (ticketPfx .proxyGrantingTicket) epochId randId)
        (create_rand_str "PGTIOU" epochIou randIou)).1 = .error e →
      ProxyGrantingTicketManager.create_ticket client store pgturl epochId randId
        epochIou randIou now user gbst gbpt = (none, store)) ∧
    ((validate_pgturl client pgturl
        (create_rand_str (ticketPfx .proxyGrantingTicket) epochId randId)
        (create_rand_str "PGTIOU" epochIou randIou)).1 = .ok () →
      ∃ t, ProxyGrantingTicketManager.create_ticket client store pgturl epochId randId
          epochIou randIou now user gbst gbpt = (some t, store ++ [t]) ∧
        t.ticket = create_rand_str (ticketPfx .proxyGrantingTicket) epochId randId ∧
        t.iou = some (create_rand_str "PGTIOU" epochIou randIou) ∧
        t.user = user ∧ t.created = now ∧ t.consumed = none ∧
        t.granted_by_st = gbst ∧ t.granted_by_pt = gbpt) := by
  constructor
  · intro e he
    unfold ProxyGrantingTicketManager.create_ticket
    dsimp only
    split
    · rfl
    · rename_i u hcl
      rw [he] at hcl
      exact Except.noConfusion hcl
  · intro hok
    unfold ProxyGrantingTicketManager.create_ticket
    dsimp only
    split
    · rename_i e hcl
      rw [hok] at hcl
      exact Except.noConfusion hcl
    · exact ⟨_, rfl, rfl, rfl, rfl, rfl, rfl, rfl, rfl⟩

/-- C3 witness: a 404 callback persists nothing; a 200 callback persists
exactly the one new PGT row. -/
theorem C3_witness :
    ProxyGrantingTicketManager.create_ticket (fun _ => .response 404) [] cbURL
      1700000000 rand32 1700000000 rand32b 1700000050 7 none none = (none, []) ∧
    ∃ t, ProxyGrantingTicketManager.create_ticket (fun _ => .response 200) [] cbURL
        1700000000 rand32 1700000000 rand32b 1700000050 7 none none = (some t, [] ++ [t]) ∧
      t.ticket = create_rand_str (ticketPfx .proxyGrantingTicket) 1700000000 rand32 ∧
      t.iou = some (create_rand_str "PGTIOU" 1700000000 rand32b) ∧
      t.user = 7 ∧ t.created = 1700000050 ∧ t.consumed = none ∧
      t.granted_by_st = none ∧ t.granted_by_pt = none :=
  ⟨(C3_pgt_issue_two_phase (fun _ => .response 404) [] cbURL 1700000000 rand32
      1700000000 rand32b 1700000050 7 none none).1
      ("Proxy callback returned " ++ toString 404 ++ " Client Error") (by decide),
   (C3_pgt_issue_two_phase (fun _ => .response 200) [] cbURL 1700000000 rand32
      1700000000 rand32b 1700000050 7 none none).2 (by decide)⟩

/-- C4 (confirmed): `validate_pgturl` fails on a non-HTTPS scheme before the
network call is made; a single GET is issued (redirects are not followed)
and a 2xx or 3xx status is success, while 4xx and 5xx fail with the status
carried in the reason. -/
theorem C4_validate_pgturl_statuses
    (client : URL → HttpOutcome) (pgturl : URL) (pgtid pgtiou : String) (st : Nat) :
    (pgturl.scheme ≠ "https" →
      validate_pgturl client pgturl pgtid pgtiou
        = (.error "Proxy callback URL scheme is not HTTPS", false)) ∧
    (pgturl.scheme = "https" →
      client (add_query_params pgturl [("pgtId", pgtid), ("pgtIou", pgtiou)]) = .response st →
      ((200 ≤ st ∧ st < 400 →
        validate_pgturl client pgturl pgtid pgtiou = (.ok (), true)) ∧
       (400 ≤ st ∧ st < 500 →
        validate_pgturl client pgturl pgtid pgtiou
          = (.error ("Proxy callback returned " ++ toString st ++ " Client Error"), true)) ∧
       (500 ≤ st ∧ st < 600 →
        validate_pgturl client pgturl pgtid pgtiou
          = (.error ("Proxy callback returned " ++ toString st ++ " Server Error"), true)))) := by
  constructor
  · intro hs
    unfold validate_pgturl
    rw [if_pos (by simp [is_scheme_https, hs])]
  · intro hs hcl
    unfold validate_pgturl
    dsimp only
    rw [if_neg (by simp [is_scheme_https, hs]), hcl]
    dsimp only
    refine ⟨?_, ?_, ?_⟩
    · rintro ⟨h1, h2⟩
      have hrs : raise_for_status st = none := by
        unfold raise_for_status
        rw [if_neg (by omega), if_neg (by omega)]
      rw [hrs]
    · rintro ⟨h1, h2⟩
      have hrs : raise_for_status st = some (toString st ++ " Client Error") := by
        unfold raise_for_status
        rw [if_pos (by omega)]
      rw [hrs]
      rfl
    · rintro ⟨h1, h2⟩
      have hrs : raise_for_status st = some (toString st ++ " Server Error") := by
        unfold raise_for_status
        rw [if_neg (by omega), if_pos (by omega)]
      rw [hrs]
      rfl

/-- C4 witness: concrete callback runs — non-HTTPS fails with no request
made; 301 succeeds; 404 and 503 fail carrying the status. -/
theorem C4_witness :
    validate_pgturl (fun _ => .response 301) httpURL "a" "b"
      = (.error "Proxy callback URL scheme is not HTTPS", false) ∧
    validate_pgturl (fun _ => .response 301) cbURL "a" "b" = (.ok (), true) ∧
    validate_pgturl (fun _ => .response 404) cbURL "a" "b"
      = (.error ("Proxy callback returned " ++ toString 404 ++ " Client Error"), true) ∧
    validate_pgturl (fun _ => .response 503) cbURL "a" "b"
      = (.error ("Proxy callback returned " ++ toString 503 ++ " Server Error"), true) :=
  ⟨(C4_validate_pgturl_statuses (fun _ => .response 301) httpURL "a" "b" 301).1 (by decide),
   ((C4_validate_pgturl_statuses (fun _ => .response 301) cbURL "a" "b" 301).2 rfl rfl).1 (by decide),
   ((C4_validate_pgturl_statuses (fun _ => .response 404) cbURL "a" "b" 404).2 rfl rfl).2.1 (by decide),
   ((C4_validate_pgturl_statuses (fun _ => .response 503) cbURL "a" "b" 503).2 rfl rfl).2.2 (by decide)⟩

/-- C7 (as stated, refuted): the string XX-1111111111-aaa… deviates from the
spec wire grammar (its two-letter prefix is not one of ST/PT/PGT/PGTIOU),
yet TICKET_RE accepts it and `validate` proceeds to the store lookup,
failing there with "does not exist" rather than rejecting the format before
any lookup. -/
theorem C7_counterexample :
    spec_grammar_match ("XX-1111111111-" ++ rand32) = false ∧
    ticket_re_match ("XX-1111111111-" ++ rand32) = true ∧
    (validate .serviceTicket [] 1700000100 ("XX-1111111111-" ++ rand32) (some svcURL) false).1
      = .error (.invalidTicket (title .serviceTicket ++ " " ++ ("XX-1111111111-" ++ rand32)
          ++ " does not exist")) := by decide

/-- C7 (amended): the generator's output matches the spec wire grammar for
all four prefixes (ST, PT, PGT, PGTIOU); `validate` rejects — before any
store lookup, for every store identically and without touching it — exactly
the presented strings that fail TICKET_RE, whose prefix class [A-Z]{2,3} is
broader than the four CAS prefixes (and excludes PGTIOU). -/
theorem C7_grammar_and_rejection
    (pfx : String)
    (hp : pfx = "ST" ∨ pfx = "PT" ∨ pfx = "PGT" ∨ pfx = "PGTIOU")
    (epoch : Nat) (rand : String)
    (hdg : (toString epoch).toList.all isDigit09 = true)
    (hdl : 10 ≤ (toString epoch).toList.length)
    (hra : rand.toList.all isAlnum = true)
    (hrl : rand.toList.length = TICKET_RAND_LEN)
    (s : String) (hs : ticket_re_match s = false) (hne : s ≠ "")
    (k : TicketKind) (store : List Ticket) (now : Nat) (svc : URL) (renew : Bool) :
    spec_grammar_match (create_rand_str pfx epoch rand) = true ∧
    validate k store now s (some svc) renew
      = (.error (.invalidTicket ("Ticket string " ++ s ++ " is invalid")), store) := by
  constructor
  · have hsplit : splitDash (create_rand_str pfx epoch rand).toList
        = [pfx.toList, (toString epoch).toList, rand.toList] := by
      rw [create_rand_str_toList]
      refine splitDash_three _ _ _ ?_
        (ne_dash_of_all isDigit09 rfl _ hdg) (ne_dash_of_all isAlnum rfl _ hra)
      rcases hp with rfl | rfl | rfl | rfl <;> decide
    unfold spec_grammar_match
    rw [hsplit]
    dsimp only
    simp only [Bool.and_eq_true, Bool.or_eq_true, decide_eq_true_eq]
    refine ⟨⟨⟨⟨?_, hdl⟩, hdg⟩, hrl⟩, hra⟩
    rcases hp with rfl | rfl | rfl | rfl <;> decide
  · cases k with
    | proxyGrantingTicket =>
      show ProxyGrantingTicketManager.validate_ticket store now s (some svc) = _
      unfold ProxyGrantingTicketManager.validate_ticket
      rw [if_neg hne, if_neg (by simp), if_pos (by simp [hs])]
    | serviceTicket =>
      show TicketManager.validate_ticket .serviceTicket store now s (some svc) renew = _
      unfold TicketManager.validate_ticket
      rw [if_neg hne, if_neg (by simp), if_pos (by simp [hs])]
    | proxyTicket =>
      show TicketManager.validate_ticket .proxyTicket store now s (some svc) renew = _
      unfold TicketManager.validate_ticket
      rw [if_neg hne, if_neg (by simp), if_pos (by simp [hs])]

/-- C7 witness: the generated PGTIOU string matches the wire grammar, and a
malformed string is rejected before lookup on a concrete store. -/
theorem C7_witness :
    spec_grammar_match (create_rand_str "PGTIOU" 1700000000 rand32) = true ∧
    validate .serviceTicket [st0] 1700000100 "bad" (some svcURL) false
      = (.error (.invalidTicket ("Ticket string " ++ "bad" ++ " is invalid")), [st0]) :=
  C7_grammar_and_rejection "PGTIOU" (by decide) 1700000000 rand32 (by decide)
    (by decide) (by decide) (by decide) "bad" (by decide) (by decide)
    .serviceTicket [st0] 1700000100 svcURL false

/-- C8 (confirmed): with a supplied service and a ticket carrying one,
validation succeeds when the two URLs share scheme, host and port (paths
may differ) and fails with InvalidService when scheme, host or port differ. -/
theorem C8_service_origin_binding
    (k : TicketKind) (hk : k ≠ TicketKind.proxyGrantingTicket)
    (store : List Ticket) (now : Nat) (t : Ticket) (ts s : URL)
    (hfind : store.find? (fun u => u.ticket == t.ticket) = some t)
    (hne : t.ticket ≠ "")
    (hre : ticket_re_match t.ticket = true)
    (hcons : t.consumed = none)
    (hexp : ¬ (t.created + TICKET_EXPIRE * 60 ≤ now))
    (hsvc : t.service = some ts) :
    (ts.scheme = s.scheme ∧ ts.host = s.host ∧ ts.port = s.port →
      (validate k store now t.ticket (some s) false).1 = .ok (t.consume now)) ∧
    (¬ (ts.scheme = s.scheme ∧ ts.host = s.host ∧ ts.port = s.port) →
      (validate k store now t.ticket (some s) false).1
        = .error (.invalidService (title k ++ " " ++ t.ticket ++ " for service "
            ++ ts.render ++ " is invalid for service " ++ s.render))) := by
  have hbase : validate k store now t.ticket (some s) false
      = TicketManager.validate_ticket k store now t.ticket (some s) false := by
    cases k with
    | proxyGrantingTicket => exact absurd rfl hk
    | serviceTicket => rfl
    | proxyTicket => rfl
  constructor
  · intro h
    rw [hbase]
    have hso : same_origin ts s = true := by
      simp [same_origin, h.1, h.2.1, h.2.2]
    rw [base_validate_ok k store now t ts s hfind hne hre hcons hexp hsvc hso]
  · intro hn
    cases hso : same_origin ts s with
    | true =>
      exfalso
      apply hn
      have h3 : (ts.scheme = s.scheme ∧ ts.host = s.host) ∧ ts.port = s.port := by
        simpa [same_origin] using hso
      exact ⟨h3.1.1, h3.1.2, h3.2⟩
    | false =>
      rw [hbase]
      rw [base_validate_service_mismatch k store now t ts s false
        hfind hne hre hcons hexp hsvc hso]

/-- C8 witness: a service differing only by path validates; a service with a
different host fails with InvalidService. -/
theorem C8_witness :
    (validate .serviceTicket [st0] 1700000100 st0.ticket (some svcURL2) false).1
      = .ok (st0.consume 1700000100) ∧
    (validate .serviceTicket [st0] 1700000100 st0.ticket (some otherURL) false).1
      = .error (.invalidService (title .serviceTicket ++ " " ++ st0.ticket
          ++ " for service " ++ svcURL.render ++ " is invalid for service "
          ++ otherURL.render)) :=
  ⟨(C8_service_origin_binding .serviceTicket (by decide) [st0] 1700000100 st0
      svcURL svcURL2 (by decide) (by decide) (by decide) (by decide) (by decide)
      (by decide)).1 (by decide),
   (C8_service_origin_binding .serviceTicket (by decide) [st0] 1700000100 st0
      svcURL otherURL (by decide) (by decide) (by decide) (by decide) (by decide)
      (by decide)).2 (by decide)⟩

/-- C9 (confirmed): `consume_tickets` marks consumed exactly the rows of the
given user that are neither consumed nor expired, and returns every other
row — other owners, already-consumed or expired rows — unchanged, in place. -/
theorem C9_consume_tickets_frame (store : List Ticket) (user now : Nat) :
    (consume_tickets store user now).length = store.length ∧
    ∀ (i : Nat) (t : Ticket), store[i]? = some t →
      ((t.user = user ∧ t.consumed = none ∧ ¬ (t.created + TICKET_EXPIRE * 60 ≤ now)) →
        (consume_tickets store user now)[i]? = some (t.consume now)) ∧
      (¬ (t.user = user ∧ t.consumed = none ∧ ¬ (t.created + TICKET_EXPIRE * 60 ≤ now)) →
        (consume_tickets store user now)[i]? = some t) := by
  rw [consume_tickets_eq_map]
  constructor
  · exact List.length_map store _
  · intro i t ht
    rw [List.getElem?_map, ht]
    constructor
    · rintro ⟨h1, h2, h3⟩
      have hcond : (t.user == user && ¬ t.is_consumed && ¬ t.is_expired now) = true := by
        simp [h1, Ticket.is_consumed, h2, Ticket.is_expired, h3]
      simp only [Option.map_some']
      rw [if_pos hcond]
    · intro hn
      have hcond : (t.user == user && ¬ t.is_consumed && ¬ t.is_expired now) = false := by
        cases hc : (t.user == user && ¬ t.is_consumed && ¬ t.is_expired now) with
        | false => rfl
        | true =>
          exfalso
          apply hn
          simp only [Bool.and_eq_true, Bool.not_eq_true, beq_iff_eq] at hc
          refine ⟨hc.1.1, ?_, ?_⟩
          · cases hcu : t.consumed with
            | none => rfl
            | some c =>
              have h2 := hc.1.2
              rw [Ticket.is_consumed, hcu] at h2
              simp at h2
          · have h3 := hc.2
            rw [Ticket.is_expired] at h3
            simpa using h3
      simp only [Option.map_some']
      rw [if_neg (fun hx => by rw [hx] at hcond; exact Bool.noConfusion hcond)]

/-- C9 witness: on a store holding a fresh row of user 1, a consumed row of
user 1 and a fresh row of user 2, only the first row is consumed. -/
theorem C9_witness :
    (consume_tickets [st0, st1, st2] 1 1700000100)[0]? = some (st0.consume 1700000100) ∧
    (consume_tickets [st0, st1, st2] 1 1700000100)[1]? = some st1 ∧
    (consume_tickets [st0, st1, st2] 1 1700000100)[2]? = some st2 :=
  ⟨((C9_consume_tickets_frame [st0, st1, st2] 1 1700000100).2 0 st0 rfl).1 (by decide),
   ((C9_consume_tickets_frame [st0, st1, st2] 1 1700000100).2 1 st1 rfl).2 (by decide),
   ((C9_consume_tickets_frame [st0, st1, st2] 1 1700000100).2 2 st2 rfl).2 (by decide)⟩

/-- The PGT creation path either leaves the store unchanged or appends one
row whose ticket string is the pre-generated PGT id. -/
theorem pgt_create_store_cases (client : URL → HttpOutcome) (store : List Ticket)
    (pgturl : URL) (epochId : Nat) (randId : String) (epochIou : Nat)
    (randIou : String) (now user : Nat) (gbst gbpt : Option String) :
    (ProxyGrantingTicketManager.create_ticket client store pgturl epochId randId
      epochIou randIou now user gbst gbpt).2 = store ∨
    ∃ t, (ProxyGrantingTicketManager.create_ticket client store pgturl epochId randId
        epochIou randIou now user gbst gbpt).2 = store ++ [t] ∧
      t.ticket = create_rand_str (ticketPfx .proxyGrantingTicket) epochId randId := by
  unfold ProxyGrantingTicketManager.create_ticket
  dsimp only
  split
  · exact Or.inl rfl
  · exact Or.inr ⟨_, rfl, rfl⟩

/-- C10 (confirmed): every manager operation — create, validate,
consume_tickets, delete_invalid_tickets and PGT issuance — preserves the
ticket invariants: a surviving row never changes its created timestamp, and
its consumed timestamp, once non-null, is never changed or cleared. -/
theorem C10_invariants_preserved (store : List Ticket)
    (huniq : store.Pairwise (fun a b => a.ticket ≠ b.ticket)) :
    (∀ kind tk epoch rand now user svc prim iou gbst gbpt gbpgt,
      (∀ u ∈ store, u.ticket ≠ (TicketManager.create_ticket kind store tk epoch
          rand now user svc prim iou gbst gbpt gbpgt).1.ticket) →
      preservesTicketInv store (TicketManager.create_ticket kind store tk epoch
        rand now user svc prim iou gbst gbpt gbpgt).2) ∧
    (∀ kind now tkt svc renew,
      preservesTicketInv store (validate kind store now tkt svc renew).2) ∧
    (∀ user now, preservesTicketInv store (consume_tickets store user now)) ∧
    (∀ now, preservesTicketInv store (delete_invalid_tickets store now)) ∧
    (∀ client pgturl epochId randId epochIou randIou now user gbst gbpt,
      (∀ u ∈ store, u.ticket ≠ create_rand_str (ticketPfx .proxyGrantingTicket) epochId randId) →
      preservesTicketInv store (ProxyGrantingTicketManager.create_ticket client
        store pgturl epochId randId epochIou randIou now user gbst gbpt).2) := by
  refine ⟨?_, ?_, ?_, ?_, ?_⟩
  · intro kind tk epoch rand now user svc prim iou gbst gbpt gbpgt hfresh
    exact preserves_append_fresh store huniq _ hfresh
  · intro kind now tkt svc renew
    rcases validate_store_cases kind store now tkt svc renew with h | ⟨t0, hf, hc0, h⟩
    · rw [h]
      exact preserves_of_subset store store huniq (fun b hb => hb)
    · rw [h]
      exact preserves_save_consume store huniq t0 (List.mem_of_find?_eq_some hf) hc0 now
  · intro user now
    exact preserves_consume_tickets store huniq user now
  · intro now
    exact preserves_of_subset store _ huniq
      (fun b hb => (List.mem_filter.mp hb).1)
  · intro client pgturl epochId randId epochIou randIou now user gbst gbpt hfresh
    rcases pgt_create_store_cases client store pgturl epochId randId epochIou
        randIou now user gbst gbpt with h | ⟨t, h, hts⟩
    · rw [h]
      exact preserves_of_subset store store huniq (fun b hb => hb)
    · rw [h]
      refine preserves_append_fresh store huniq t ?_
      intro u hu
      rw [hts]
      exact hfresh u hu

/-- C10 witness: the invariant preservation applied to a concrete store for
validate, consume_tickets and delete_invalid_tickets. -/
theorem C10_witness :
    preservesTicketInv [st0] (validate .serviceTicket [st0] 1700000100 st0.ticket (some svcURL) false).2 ∧
    preservesTicketInv [st0] (consume_tickets [st0] 1 1700000100) ∧
    preservesTicketInv [st0] (delete_invalid_tickets [st0] 1700000100) :=
  ⟨(C10_invariants_preserved [st0] (by decide)).2.1 .serviceTicket 1700000100 st0.ticket (some svcURL) false,
   (C10_invariants_preserved [st0] (by decide)).2.2.1 1 1700000100,
   (C10_invariants_preserved [st0] (by decide)).2.2.2.1 1700000100⟩
